import Mathlib

/-!
Verification development for the celery-redis automated gather pipeline.

Shallow embedding of:
- `src/app/agents/duplicate_detector.py` (deduplicate_items, _content_hash)
- `src/app/agents/quality_analyzer.py` (analyze_department_quality shell)
- `src/app/tasks/automated_gather_tasks.py` (automated_gather_creation)
- `src/app/clients/brain_client.py` (_send_request pending-table handling,
  index_in_brain_async, store_task_result, cache_task_result)

External collaborators (Mongo, the brain websocket, the LLM SDK, Redis
pub/sub) are modelled as oracles: functions supplied as parameters that
return either a value or a raised Python exception.  Machine floats used
for similarity and quality scores are modelled as rationals.
-/

deriving instance DecidableEq for Except

namespace CeleryRedis

/-- A Python exception as dispatched by the task's handlers: the celery
cooperative soft-timeout signal `SoftTimeLimitExceeded` versus every other
exception (carrying its message). -/
inductive PyExc where
  | softTimeLimitExceeded
  | err (msg : String)
deriving DecidableEq, Repr

/-- A gather item as the code reads it: `item.get('content', '')`,
`item.get('summary', '')` and `item.get('automationMetadata', {}).get('department')`
are the only fields the dedup engine and quality analyzer consult.
`deptMeta = none` models an item with no automation metadata department. -/
structure Item where
  content : String
  summary : String
  deptMeta : Option String
deriving DecidableEq, Repr

/- ---------------------------------------------------------------------
   src/app/agents/duplicate_detector.py
   --------------------------------------------------------------------- -/

/-- One step of whitespace tokenization: a whitespace character opens a new
(empty) word, any other character extends the current word. -/
def tokStep (c : Char) (acc : List (List Char)) : List (List Char) :=
  if c.isWhitespace then [] :: acc
  else
    match acc with
    | [] => [[c]]
    | w :: ws => (c :: w) :: ws

/-- Whitespace tokenization of a character list, matching Python's
`str.split()` with no argument: split on whitespace runs, dropping empty
tokens (hence leading/trailing whitespace is immaterial). -/
def tokenize (cs : List Char) : List (List Char) :=
  (cs.foldr tokStep []).filter (· ≠ [])

/-- Normalization inside `_content_hash` (lines 205-214): lowercase, strip,
collapse whitespace runs to single spaces, i.e. Python's
`' '.join(content.lower().strip().split())`. -/
def normalizeContent (content : String) : String :=
  String.intercalate " " ((tokenize (content.data.map Char.toLower)).map String.mk)

/-- The md5 fingerprint of `_content_hash` is modelled as the normalized
text itself: equal normalized strings give equal digests, and the development
treats the digest as injective (md5 collisions are out of scope). -/
def contentHash (content : String) : String :=
  normalizeContent content

/-- The similarity oracle `check_semantic_similarity(text1, text2, summary1,
summary2)`: an arbitrary score function, since the LLM (or the Jaccard
fallback) is external to the dedup loop's control flow. -/
def SimOracle : Type := String → String → String → String → ℚ

/-- The inner `for existing in dept_existing` loop of `deduplicate_items`
(lines 67-100) for one candidate: exact hash match short-circuits, otherwise
a similarity strictly above 0.90 marks a duplicate and the scan breaks at
the first such existing item. -/
def scanDuplicate (sim : SimOracle) (newItem : Item) : List Item → Bool
  | [] => false
  | existing :: rest =>
    if contentHash newItem.content = contentHash existing.content then
      true
    else if sim newItem.content existing.content newItem.summary existing.summary
            > mkRat 9 10 then
      true
    else
      scanDuplicate sim newItem rest

/-- The department filter of `deduplicate_items` (lines 48-51). -/
def deptFilter (existing_items : List Item) (department : String) : List Item :=
  existing_items.filter (fun item => item.deptMeta = some department)

/-- Embedding of `deduplicate_items(new_items, existing_items, department)`
(lines 14-113): empty candidate list returns `[]`, empty existing corpus
returns the candidates unchanged, otherwise candidates that scan as
duplicates against the department-filtered existing corpus are omitted,
order preserved. -/
def deduplicate_items (sim : SimOracle) (new_items existing_items : List Item)
    (department : String) : List Item :=
  if new_items = [] then []
  else if existing_items = [] then new_items
  else
    let dept_existing := deptFilter existing_items department
    new_items.filter (fun ni => !scanDuplicate sim ni dept_existing)

example :
    normalizeContent "The quick brown fox." = normalizeContent "the   quick BROWN fox." := by
  decide

/- ---------------------------------------------------------------------
   src/app/agents/quality_analyzer.py
   --------------------------------------------------------------------- -/

/-- Embedding of `analyze_department_quality(project_id, department,
gather_items)` (lines 12-136).  The items are filtered to the department;
an empty slice scores 0.  Otherwise the external scoring runs: the function
absorbs its own oracle failures into the mock heuristic, so `inner` carries
the resulting numeric value as `.ok` (LLM or mock), while `.error` models an
asynchronously delivered signal during the call; a returned score is clamped
to the 0-100 range (line 111). -/
def analyze_department_quality (inner : Except PyExc ℚ) (deptSlug : String)
    (gather_items : List Item) : Except PyExc ℚ :=
  let dept_items := gather_items.filter (fun it => it.deptMeta = some deptSlug)
  if dept_items = [] then .ok 0
  else inner.map (fun s => min (max s 0) 100)

/- ---------------------------------------------------------------------
   src/app/tasks/automated_gather_tasks.py : data model
   --------------------------------------------------------------------- -/

/-- A department configuration as the task reads it: `dept['slug']`,
`dept.get('name', slug)`, `dept.get('codeDepNumber', index+1)`,
`dept.get('gatherCheck', False)`,
`dept.get('coordinationSettings', {}).get('minQualityThreshold', 80)` and
`dept.get('defaultModel', ...)`.  `none` models an absent key. -/
structure Dept where
  slug : String
  name : Option String
  codeDepNumber : Option Nat
  gatherCheck : Bool
  minQualityThreshold : Option ℚ
  defaultModel : Option String
deriving DecidableEq, Repr

/-- The per-department summary appended to `processed_departments`
(lines 322-331). -/
structure DeptSummary where
  department : String
  name : String
  number : Nat
  quality_score : ℚ
  iterations : Nat
  items_created : Nat
  threshold : ℚ
  model : String
deriving DecidableEq, Repr

/-- The `automation_metadata` dict passed to `save_to_gather_db`
(lines 245-253). -/
structure AutomationMetadata where
  taskId : String
  department : String
  departmentName : String
  departmentNumber : Nat
  iteration : Nat
  qualityScore : ℚ
  model : String
deriving DecidableEq, Repr

/-- Progress events published through `send_websocket_event`, restricted to
the payload fields the claims mention.  `send_websocket_event` itself
absorbs every failure and returns a Bool (websocket_client.py lines 31-80),
so publishing is modelled as a pure append to the event trace. -/
inductive Event where
  | automation_started (departments_count max_iterations : Nat)
  | department_started (department : String) (threshold : ℚ) (total_iterations : Nat)
  | deduplicating (department : String) (items_to_check : Nat)
  | iteration_complete (department : String) (iteration total_iterations : Nat)
      (quality_score : ℚ) (items_created : Nat)
  | department_complete (department : String) (quality_score : ℚ)
      (iterations_used items_created : Nat)
  | automation_complete (total_iterations departments_processed items_created : Nat)
  | automation_timeout
  | automation_error (msg : String)
deriving DecidableEq, Repr

/-- The three terminal event types of the progress bus. -/
def Event.isTerminal : Event → Bool
  | .automation_complete _ _ _ => true
  | .automation_timeout => true
  | .automation_error _ => true
  | _ => false

/-- Session-wide mutable state of one `automated_gather_creation` run, plus
model instrumentation: `clock` counts collaborator calls (so an oracle can
answer differently on every call), `genCalls` counts invocations of the
Content Generator and `saveErrors` counts persistence calls that raised a
non-soft exception. -/
structure SessState where
  clock : Nat
  gather_items : List Item
  brain_context : List Item
  total_iterations : Nat
  processed_departments : List DeptSummary
  total_items_created : Nat
  events : List Event
  genCalls : Nat
  saveErrors : Nat
deriving DecidableEq, Repr

/-- The external collaborators of the task, as one oracle record.  Each
fallible call takes the current call clock; a `.error` result models the
call raising (for calls whose implementation absorbs its own faults, such
as `get_department_context`, it models an asynchronously delivered signal at
that suspension point).  `index_in_brain` and `trigger_eval` never raise in
the source (both absorb all exceptions), so they are total. -/
structure Oracle where
  read_gather_items : Except PyExc (List Item)
  get_brain_context : Except PyExc (List Item)
  query_departments : Except PyExc (List Dept)
  get_department_context : Nat → String → Except PyExc (List Item)
  generate_content_batch : Nat → Dept → List Item → List DeptSummary → String →
      Except PyExc (List Item)
  sim : SimOracle
  insert_many : Nat → List Item → Except PyExc Unit
  index_in_brain : Nat → List Item → Dept → Bool
  quality_score : Nat → Dept → List Item → Except PyExc ℚ
  trigger_eval : Nat → Nat → Bool

/-- Document construction of `save_to_gather_db` (mongodb_client.py lines
120-148), restricted to the fields the model tracks: the saved doc keeps
content and summary and records `automationMetadata.department`. -/
def buildSavedDocs (md : AutomationMetadata) (items : List Item) : List Item :=
  items.map (fun it =>
    { content := it.content, summary := it.summary, deptMeta := some md.department })

/-- Embedding of `save_to_gather_db` (mongodb_client.py lines 95-176): empty
input returns `[]` without touching the store; otherwise the insert runs and
every failure is re-raised to the caller (line 176). -/
def save_to_gather_db (o : Oracle) (clock : Nat) (items : List Item)
    (md : AutomationMetadata) : Except PyExc (List Item) :=
  if items = [] then .ok []
  else
    match o.insert_many clock (buildSavedDocs md items) with
    | .ok _ => .ok (buildSavedDocs md items)
    | .error e => .error e

/-- Fixed per-department context of the inner iteration loop
(lines 139-158 of automated_gather_tasks.py). -/
structure DeptCtx where
  task_id : String
  max_iterations : Nat
  dept : Dept
  dept_name : String
  dept_number : Nat
  threshold : ℚ
  model : String

/-- State of the inner `while` loop: the session state plus
`quality_score`, `dept_iterations` and `dept_items_created`
(lines 150-152). -/
structure DeptLoopState where
  sess : SessState
  quality_score : ℚ
  dept_iterations : Nat
  dept_items_created : Nat
deriving DecidableEq, Repr

/-- Outcome of one pass through the `try` block of the inner loop
(lines 172-309): `continued` is the `except Exception: continue` path,
`broke` is any `break` (empty generation, all duplicates, or the
`except SoftTimeLimitExceeded` handler), `completed` is the full iteration
that increments both counters. -/
inductive IterResult where
  | continued (ls : DeptLoopState)
  | broke (ls : DeptLoopState)
  | completed (ls : DeptLoopState)
deriving DecidableEq, Repr

/-- The loop state carried by an iteration outcome. -/
def IterResult.state : IterResult → DeptLoopState
  | .continued ls => ls
  | .broke ls => ls
  | .completed ls => ls

/-- Whether the iteration ran to completion (reaching the increments at
lines 269-270). -/
def IterResult.isCompleted : IterResult → Bool
  | .completed _ => true
  | _ => false

/-- The `automation_metadata` dict built for the save call (lines 245-253),
as a function of the per-department context and the loop state. -/
def iterMetadata (ctx : DeptCtx) (ls : DeptLoopState) : AutomationMetadata :=
  { taskId := ctx.task_id, department := ctx.dept.slug,
    departmentName := ctx.dept_name, departmentNumber := ctx.dept_number,
    iteration := ls.dept_iterations + 1, qualityScore := ls.quality_score,
    model := ctx.model }

/-- One pass through the body of the inner `while` loop of
`automated_gather_creation` (lines 172-309), following the source step by
step; every oracle consultation advances the call clock. -/
def iterBody (o : Oracle) (ctx : DeptCtx) (ls : DeptLoopState) : IterResult :=
  let s0 := ls.sess
  match o.get_department_context s0.clock ctx.dept.slug with
  | .error .softTimeLimitExceeded =>
    .broke { ls with sess := { s0 with clock := s0.clock + 1 } }
  | .error (.err _) =>
    .continued { ls with sess := { s0 with clock := s0.clock + 1 } }
  | .ok dept_brain_context =>
    let s1 := { s0 with clock := s0.clock + 1 }
    let existing_context := s1.gather_items ++ s1.brain_context ++ dept_brain_context
    let genRes := o.generate_content_batch s1.clock ctx.dept existing_context
        s1.processed_departments ctx.model
    let s2 := { s1 with clock := s1.clock + 1, genCalls := s1.genCalls + 1 }
    match genRes with
    | .error .softTimeLimitExceeded => .broke { ls with sess := s2 }
    | .error (.err _) => .continued { ls with sess := s2 }
    | .ok new_items =>
      if new_items = [] then .broke { ls with sess := s2 }
      else
        let s3 := { s2 with
          events := s2.events ++ [.deduplicating ctx.dept.slug new_items.length] }
        let deduplicated := deduplicate_items o.sim new_items s3.gather_items ctx.dept.slug
        if deduplicated = [] then .broke { ls with sess := s3 }
        else
          match save_to_gather_db o s3.clock deduplicated (iterMetadata ctx ls) with
          | .error .softTimeLimitExceeded =>
            .broke { ls with sess := { s3 with clock := s3.clock + 1 } }
          | .error (.err _) =>
            .continued { ls with sess :=
              { s3 with clock := s3.clock + 1, saveErrors := s3.saveErrors + 1 } }
          | .ok saved_items =>
            let s4 := { s3 with clock := s3.clock + 1 }
            let _ := o.index_in_brain s4.clock saved_items ctx.dept
            let s5 := { s4 with
              clock := s4.clock + 1,
              gather_items := s4.gather_items ++ saved_items,
              total_items_created := s4.total_items_created + saved_items.length }
            let dic := ls.dept_items_created + saved_items.length
            match analyze_department_quality
                (o.quality_score s5.clock ctx.dept s5.gather_items)
                ctx.dept.slug s5.gather_items with
            | .error .softTimeLimitExceeded =>
              .broke { ls with
                sess := { s5 with clock := s5.clock + 1 },
                dept_items_created := dic }
            | .error (.err _) =>
              .continued { ls with
                sess := { s5 with clock := s5.clock + 1 },
                dept_items_created := dic }
            | .ok score =>
              let s6 := { s5 with
                clock := s5.clock + 1,
                total_iterations := s5.total_iterations + 1,
                events := s5.events ++
                  [.iteration_complete ctx.dept.slug (ls.dept_iterations + 1)
                    (s5.total_iterations + 1) score saved_items.length] }
              .completed { sess := s6, quality_score := score,
                           dept_iterations := ls.dept_iterations + 1,
                           dept_items_created := dic }

/-- Exit of the inner loop, with a fuel marker distinguishing termination
from running out of modelling fuel. -/
inductive LoopExit where
  | finished (ls : DeptLoopState)
  | fuelOut (ls : DeptLoopState)
deriving DecidableEq, Repr

/-- The loop state carried by a loop exit. -/
def LoopExit.state : LoopExit → DeptLoopState
  | .finished ls => ls
  | .fuelOut ls => ls

/-- The inner `while quality_score < threshold and total_iterations <
max_iterations` loop (line 172), wrapped in fuel since a repeatedly raising
iteration never increments either counter and so never terminates on its
own. -/
def deptLoop (o : Oracle) (ctx : DeptCtx) : Nat → DeptLoopState → LoopExit
  | 0, ls => .fuelOut ls
  | fuel + 1, ls =>
    if ls.quality_score < ctx.threshold ∧ ls.sess.total_iterations < ctx.max_iterations then
      match iterBody o ctx ls with
      | .continued ls' => deptLoop o ctx fuel ls'
      | .broke ls' => .finished ls'
      | .completed ls' => deptLoop o ctx fuel ls'
    else .finished ls

/-- Exit of a department or of the department fold. -/
inductive SessExit where
  | finished (s : SessState)
  | fuelOut (s : SessState)
deriving DecidableEq, Repr

/-- The session state carried by a session exit. -/
def SessExit.state : SessExit → SessState
  | .finished s => s
  | .fuelOut s => s

/-- Processing of one department (lines 130-350): defensive gatherCheck
skip, threshold and model resolution, department_started event, the inner
loop, the absorbed evaluation trigger, the appended run summary and the
department_complete event. -/
def processDept (o : Oracle) (fuel : Nat) (task_id : String) (max_iterations : Nat)
    (s : SessState) (dept_index : Nat) (dept : Dept) : SessExit :=
  if dept.gatherCheck = false then .finished s
  else
    let dept_name := dept.name.getD dept.slug
    let dept_number := dept.codeDepNumber.getD (dept_index + 1)
    let threshold := dept.minQualityThreshold.getD 80
    let model := dept.defaultModel.getD "anthropic/claude-sonnet-4.5"
    let ctx : DeptCtx :=
      { task_id := task_id, max_iterations := max_iterations, dept := dept,
        dept_name := dept_name, dept_number := dept_number,
        threshold := threshold, model := model }
    let s1 := { s with events := s.events ++
      [.department_started dept.slug threshold s.total_iterations] }
    match deptLoop o ctx fuel
        { sess := s1, quality_score := 0, dept_iterations := 0, dept_items_created := 0 } with
    | .fuelOut ls => .fuelOut ls.sess
    | .finished ls =>
      let _ := o.trigger_eval ls.sess.clock dept_number
      let s2 := { ls.sess with clock := ls.sess.clock + 1 }
      let summary : DeptSummary :=
        { department := dept.slug, name := dept_name, number := dept_number,
          quality_score := ls.quality_score, iterations := ls.dept_iterations,
          items_created := ls.dept_items_created, threshold := threshold, model := model }
      .finished { s2 with
                  processed_departments := s2.processed_departments ++ [summary],
                  events := s2.events ++
                    [.department_complete dept.slug ls.quality_score ls.dept_iterations
                      ls.dept_items_created] }

/-- The `for dept_index, dept in enumerate(departments)` loop (line 130). -/
def foldDepts (o : Oracle) (fuel : Nat) (task_id : String) (max_iterations : Nat) :
    SessState → List Dept → Nat → SessExit
  | s, [], _ => .finished s
  | s, dept :: rest, idx =>
    match processDept o fuel task_id max_iterations s idx dept with
    | .fuelOut s' => .fuelOut s'
    | .finished s' => foldDepts o fuel task_id max_iterations s' rest (idx + 1)

/-- Input of the task (lines 66-69); `max_iterations` defaults to 50 at the
call sites below, mirroring `task_data.get('max_iterations', 50)`. -/
structure TaskData where
  project_id : String
  user_id : String
  task_id : String
  max_iterations : Nat
deriving DecidableEq, Repr

/-- The dict returned by the task on normal completion (lines 109-115 and
371-377). -/
structure SessionResult where
  status : String
  iterations : Nat
  departments_processed : Nat
  items_created : Nat
  summary : List DeptSummary
  message : Option String
deriving DecidableEq, Repr

/-- How one task run ends: a returned value, a propagated exception, or
fuel exhaustion of the model. -/
inductive TaskResult where
  | ok (r : SessionResult)
  | raised (e : PyExc)
  | outOfFuel
deriving DecidableEq, Repr

/-- A finished run: final session state (whose `events` field is the
published event trace, in order) and how the task ended. -/
structure TaskRun where
  finalState : SessState
  result : TaskResult
deriving DecidableEq, Repr

/-- The initial session state after loading the corpus and brain context. -/
def initState (gather brain : List Item) : SessState :=
  { clock := 0, gather_items := gather, brain_context := brain,
    total_iterations := 0, processed_departments := [],
    total_items_created := 0, events := [], genCalls := 0, saveErrors := 0 }

/-- The two top-level exception handlers (lines 379-405): a soft timeout
publishes automation_timeout and re-raises, anything else publishes
automation_error and re-raises. -/
def raisedRun (e : PyExc) (s : SessState) : TaskRun :=
  match e with
  | .softTimeLimitExceeded =>
    { finalState := { s with events := s.events ++ [.automation_timeout] },
      result := .raised .softTimeLimitExceeded }
  | .err m =>
    { finalState := { s with events := s.events ++ [.automation_error m] },
      result := .raised (.err m) }

/-- Embedding of the whole task `automated_gather_creation` (lines 44-405).
The three loading steps absorb their own faults in the source, so a raise
there models the asynchronously delivered signal; an empty department list
returns early (lines 104-115) without publishing anything. -/
def automated_gather_creation (o : Oracle) (fuel : Nat) (td : TaskData) : TaskRun :=
  match o.read_gather_items with
  | .error e => raisedRun e (initState [] [])
  | .ok gather =>
  match o.get_brain_context with
  | .error e => raisedRun e (initState gather [])
  | .ok brain =>
  match o.query_departments with
  | .error e => raisedRun e (initState gather brain)
  | .ok departments =>
  if departments = [] then
    { finalState := initState gather brain,
      result := .ok { status := "completed", iterations := 0, departments_processed := 0,
                      items_created := 0, summary := [],
                      message := some "No departments configured for automation" } }
  else
    let s0 := { initState gather brain with
                events := [Event.automation_started departments.length td.max_iterations] }
    match foldDepts o fuel td.task_id td.max_iterations s0 departments 0 with
    | .fuelOut s => { finalState := s, result := .outOfFuel }
    | .finished s =>
      let s1 := { s with events := s.events ++
                  [Event.automation_complete s.total_iterations
                    s.processed_departments.length s.total_items_created] }
      { finalState := s1,
        result := .ok { status := "completed", iterations := s.total_iterations,
                        departments_processed := s.processed_departments.length,
                        items_created := s.total_items_created,
                        summary := s.processed_departments, message := none } }

/- ---------------------------------------------------------------------
   src/app/clients/brain_client.py
   --------------------------------------------------------------------- -/

/-- The request-correlation state of `BrainServiceClient`: the strictly
increasing `request_id` counter and the keys of the `pending_requests`
table (ids are unique, so a list of keys suffices). -/
structure BrainState where
  request_id : Nat
  pending : List Nat
deriving DecidableEq, Repr

/-- Lines 110-123 of `_send_request`: increment the counter, build the
request with the new id, register a pending entry under it. -/
def sendRegister (st : BrainState) : BrainState × Nat :=
  let rid := st.request_id + 1
  ({ request_id := rid, pending := st.pending ++ [rid] }, rid)

/-- Lines 85-91 of `_listen_for_responses`: a response's echoed id pops the
matching pending entry (no effect when the id is unknown). -/
def listenerDeliver (st : BrainState) (respId : Nat) : BrainState :=
  { st with pending := st.pending.erase respId }

/-- Line 138 of `_send_request`: on `asyncio.TimeoutError` the code runs
`self.pending_requests.pop(self.request_id, None)` — it pops the id held by
the instance's CURRENT counter, not the id that was allocated for the
timed-out call. -/
def timeoutCleanup (st : BrainState) : BrainState :=
  { st with pending := st.pending.erase st.request_id }

/-- Response payload of a store_knowledge call as the client reads it
(`result.get("id", "")`). -/
structure StoreResp where
  id : String
deriving DecidableEq, Repr

/-- Response payload of a batch_create_nodes call as the client reads it
(`result.get("success", False)`). -/
structure BatchResp where
  success : Bool
deriving DecidableEq, Repr

/-- A node built by `index_in_brain_async` (lines 420-432), restricted to
the fields the model tracks. -/
structure BrainNode where
  projectId : String
  content : String
  summary : String
  department : String
  departmentName : String
deriving DecidableEq, Repr

/-- Node construction of `index_in_brain_async` (lines 419-432). -/
def buildNodes (project_id : String) (items : List Item) (dept : Dept) : List BrainNode :=
  items.map (fun it =>
    { projectId := project_id, content := it.content, summary := it.summary,
      department := dept.slug, departmentName := dept.name.getD "" })

/-- Embedding of `index_in_brain_async` (lines 401-452): build the nodes,
issue batch_create_nodes (`send` is the `_send_request` round trip, which
may raise), read `result.get("success", False)`; the enclosing
`except Exception` (lines 447-452) turns EVERY raised exception into a
returned `False`. -/
def index_in_brain_async (send : List BrainNode → Except PyExc BatchResp)
    (project_id : String) (items : List Item) (dept : Dept) : Bool :=
  match send (buildNodes project_id items dept) with
  | .ok r => r.success
  | .error _ => false

/-- Modelled from the spec: the durable-intent `batchIndex` operation as
section 4.1/7 describes it — every lower-level failure propagates to the
caller instead of being absorbed.  Used only to exhibit the divergence from
`index_in_brain_async` as implemented. -/
def batchIndex_spec (send : List BrainNode → Except PyExc BatchResp)
    (project_id : String) (items : List Item) (dept : Dept) : Except PyExc Bool :=
  match send (buildNodes project_id items dept) with
  | .ok r => .ok r.success
  | .error e => .error e

/-- Embedding of `store_task_result` (lines 147-171): the underlying
store_knowledge outcome is returned as the node id on success, and the
`except` clause logs and RE-raises on failure (line 171). -/
def store_task_result (send : Except PyExc StoreResp) : Except PyExc String :=
  match send with
  | .ok r => .ok r.id
  | .error e => .error e

/-- Embedding of `cache_task_result` (lines 255-275): True when the
underlying store_knowledge round trip completes, False when it raises for
any reason (lines 273-275). -/
def cache_task_result (send : Except PyExc StoreResp) : Bool :=
  match send with
  | .ok _ => true
  | .error _ => false

/- ---------------------------------------------------------------------
   Shared concrete inputs for witnesses and counterexamples
   --------------------------------------------------------------------- -/

/-- A sample automatable department. -/
def deptStory : Dept :=
  { slug := "story", name := some "Story", codeDepNumber := some 1,
    gatherCheck := true, minQualityThreshold := none, defaultModel := none }

/-- A second sample automatable department. -/
def deptCharacter : Dept :=
  { slug := "character", name := some "Character", codeDepNumber := some 2,
    gatherCheck := true, minQualityThreshold := none, defaultModel := none }

/-- A sample task input with the default iteration budget of 50. -/
def tdSample : TaskData :=
  { project_id := "proj-1", user_id := "user-1", task_id := "task-1",
    max_iterations := 50 }

/- ---------------------------------------------------------------------
   Helper lemmas about the dedup scan
   --------------------------------------------------------------------- -/

/-- When no existing item matches the candidate's fingerprint, the scan
reports a duplicate exactly when some existing item scores strictly above
0.90. -/
theorem scanDuplicate_iff (sim : SimOracle) (c : Item) (L : List Item)
    (h : ∀ x ∈ L, contentHash c.content ≠ contentHash x.content) :
    scanDuplicate sim c L = true ↔
      ∃ x ∈ L, sim c.content x.content c.summary x.summary > mkRat 9 10 := by
  induction L with
  | nil => simp [scanDuplicate]
  | cons e rest ih =>
    have he : contentHash c.content ≠ contentHash e.content := h e (by simp)
    have hr : ∀ x ∈ rest, contentHash c.content ≠ contentHash x.content :=
      fun x hx => h x (by simp [hx])
    by_cases hs : sim c.content e.content c.summary e.summary > mkRat 9 10
    · simp [scanDuplicate, he, hs]
    · simp [scanDuplicate, he, hs, ih hr]

/-- When additionally no existing item scores above the threshold, the scan
clears the candidate. -/
theorem scanDuplicate_false (sim : SimOracle) (c : Item) (L : List Item)
    (h : ∀ x ∈ L, contentHash c.content ≠ contentHash x.content ∧
      ¬ sim c.content x.content c.summary x.summary > mkRat 9 10) :
    scanDuplicate sim c L = false := by
  induction L with
  | nil => simp [scanDuplicate]
  | cons e rest ih =>
    have he := h e (by simp)
    simp [scanDuplicate, he.1, he.2, ih (fun x hx => h x (by simp [hx]))]

/-- A candidate whose scan clears stays in the dedup output. -/
theorem mem_deduplicate_of_scan_false (sim : SimOracle) (c : Item)
    (new_items existing : List Item) (dept : String) (hc : c ∈ new_items)
    (hscan : scanDuplicate sim c (deptFilter existing dept) = false) :
    c ∈ deduplicate_items sim new_items existing dept := by
  unfold deduplicate_items
  have hne : ¬ new_items = [] := by
    intro h; subst h; simp at hc
  by_cases hex : existing = []
  · simp [hne, hex, hc]
  · simp only [hne, hex, if_false]
    exact List.mem_filter.mpr ⟨hc, by simp [hscan]⟩

/- ---------------------------------------------------------------------
   Claims C6, C7, C8, C9, C10
   --------------------------------------------------------------------- -/

/-- C7: in semantic deduplication (no exact-fingerprint match against the
same-department corpus), a candidate is classified a duplicate iff its
similarity to some existing same-department item is strictly greater than
0.90; a uniform score of exactly 0.90 leaves the candidate in the output, a
score of 0.901 against some item removes it, and the scan's verdict is fixed
at the first existing item exceeding the threshold, whatever follows it. -/
theorem C7_semantic_threshold_strict :
    (∀ (sim : SimOracle) (c : Item) (existing : List Item) (dept : String),
      (∀ x ∈ deptFilter existing dept, contentHash c.content ≠ contentHash x.content) →
      (scanDuplicate sim c (deptFilter existing dept) = true ↔
        ∃ x ∈ deptFilter existing dept,
          sim c.content x.content c.summary x.summary > mkRat 9 10))
    ∧ (∀ (sim : SimOracle) (c : Item) (new_items existing : List Item) (dept : String),
      c ∈ new_items →
      (∀ x ∈ deptFilter existing dept, contentHash c.content ≠ contentHash x.content ∧
        sim c.content x.content c.summary x.summary = mkRat 9 10) →
      c ∈ deduplicate_items sim new_items existing dept)
    ∧ (∀ (sim : SimOracle) (c : Item) (new_items existing : List Item) (dept : String)
        (x : Item), x ∈ deptFilter existing dept →
      sim c.content x.content c.summary x.summary = mkRat 901 1000 →
      (∀ y ∈ deptFilter existing dept, contentHash c.content ≠ contentHash y.content) →
      c ∉ deduplicate_items sim new_items existing dept)
    ∧ (∀ (sim : SimOracle) (c e : Item) (rest : List Item),
      contentHash c.content ≠ contentHash e.content →
      sim c.content e.content c.summary e.summary > mkRat 9 10 →
      scanDuplicate sim c (e :: rest) = true) := by
  refine ⟨?_, ?_, ?_, ?_⟩
  · intro sim c existing dept h
    exact scanDuplicate_iff sim c _ h
  · intro sim c new_items existing dept hc h
    refine mem_deduplicate_of_scan_false sim c new_items existing dept hc ?_
    refine scanDuplicate_false sim c _ (fun x hx => ⟨(h x hx).1, ?_⟩)
    rw [(h x hx).2]
    exact lt_irrefl _
  · intro sim c new_items existing dept x hx hsim hnohash hmem
    have hscan : scanDuplicate sim c (deptFilter existing dept) = true := by
      refine (scanDuplicate_iff sim c _ hnohash).mpr ⟨x, hx, ?_⟩
      rw [hsim]; norm_num
    have hexne : existing ≠ [] := by
      intro h; rw [h] at hx; simp [deptFilter] at hx
    have hnne : new_items ≠ [] := by
      intro h; rw [h] at hmem; simp [deduplicate_items] at hmem
    unfold deduplicate_items at hmem
    simp only [hnne, hexne, if_false] at hmem
    have := (List.mem_filter.mp hmem).2
    simp [hscan] at this
  · intro sim c e rest hne hs
    simp [scanDuplicate, hne, hs]

/-- Similarity oracle used by the C7 witness: 0.90 for the first candidate's
content, 0.901 for the second candidate's content, 0 otherwise. -/
def simW : SimOracle := fun a _ _ _ =>
  if a = "candidate ninety" then mkRat 9 10
  else if a = "candidate nine-oh-one" then mkRat 901 1000
  else 0

/-- An existing item of the story department. -/
def itemEx : Item := { content := "existing content", summary := "ex", deptMeta := some "story" }

/-- A candidate scoring exactly 0.90 under `simW`. -/
def itemC90 : Item := { content := "candidate ninety", summary := "", deptMeta := none }

/-- A candidate scoring 0.901 under `simW`. -/
def itemC901 : Item := { content := "candidate nine-oh-one", summary := "", deptMeta := none }

/-- Witness for C7 at concrete inputs. -/
theorem C7_semantic_threshold_strict_witness :
    (scanDuplicate simW itemC90 (deptFilter [itemEx] "story") = true ↔
      ∃ x ∈ deptFilter [itemEx] "story",
        simW itemC90.content x.content itemC90.summary x.summary > mkRat 9 10)
    ∧ itemC90 ∈ deduplicate_items simW [itemC90] [itemEx] "story"
    ∧ itemC901 ∉ deduplicate_items simW [itemC901] [itemEx] "story"
    ∧ scanDuplicate simW itemC901 (itemEx :: []) = true :=
  ⟨C7_semantic_threshold_strict.1 simW itemC90 [itemEx] "story" (by decide),
   C7_semantic_threshold_strict.2.1 simW itemC90 [itemC90] [itemEx] "story"
     (by decide) (by decide),
   C7_semantic_threshold_strict.2.2.1 simW itemC901 [itemC901] [itemEx] "story" itemEx
     (by decide) (by decide) (by decide),
   C7_semantic_threshold_strict.2.2.2 simW itemC901 itemEx [] (by decide) (by decide)⟩

/-- C9: `deduplicate_items` only compares candidates against the existing
department corpus, never against each other — two candidates that duplicate
one another (equal fingerprints or similarity above 0.90) but clear the
existing same-department corpus both appear in the output. -/
theorem C9_candidates_not_compared (sim : SimOracle) (new_items existing : List Item)
    (dept : String) (c1 c2 : Item)
    (h1 : c1 ∈ new_items) (h2 : c2 ∈ new_items)
    (_hdup : contentHash c1.content = contentHash c2.content ∨
      sim c1.content c2.content c1.summary c2.summary > mkRat 9 10)
    (hc1 : ∀ x ∈ deptFilter existing dept, contentHash c1.content ≠ contentHash x.content ∧
      ¬ sim c1.content x.content c1.summary x.summary > mkRat 9 10)
    (hc2 : ∀ x ∈ deptFilter existing dept, contentHash c2.content ≠ contentHash x.content ∧
      ¬ sim c2.content x.content c2.summary x.summary > mkRat 9 10) :
    c1 ∈ deduplicate_items sim new_items existing dept ∧
    c2 ∈ deduplicate_items sim new_items existing dept :=
  ⟨mem_deduplicate_of_scan_false sim c1 new_items existing dept h1
      (scanDuplicate_false sim c1 _ hc1),
   mem_deduplicate_of_scan_false sim c2 new_items existing dept h2
      (scanDuplicate_false sim c2 _ hc2)⟩

/-- The everywhere-zero similarity oracle. -/
def simZero : SimOracle := fun _ _ _ _ => 0

/-- Two candidates whose contents normalize identically (mutual exact
duplicates). -/
def itemTwinA : Item := { content := "same text", summary := "a", deptMeta := none }

/-- The second twin: different raw content, same fingerprint as
`itemTwinA`. -/
def itemTwinB : Item := { content := "same   TEXT", summary := "b", deptMeta := none }

/-- Witness for C9 at concrete inputs. -/
theorem C9_candidates_not_compared_witness :
    itemTwinA ∈ deduplicate_items simZero [itemTwinA, itemTwinB] [itemEx] "story" ∧
    itemTwinB ∈ deduplicate_items simZero [itemTwinA, itemTwinB] [itemEx] "story" :=
  C9_candidates_not_compared simZero [itemTwinA, itemTwinB] [itemEx] "story"
    itemTwinA itemTwinB (by decide) (by decide) (Or.inl (by decide))
    (by decide) (by decide)

/-- A batch send that always raises. -/
def badBatchSend : List BrainNode → Except PyExc BatchResp :=
  fun _ => .error (.err "connection lost")

/-- C6 counterexample: when the underlying batch_create_nodes request
raises, `index_in_brain_async` returns the value `False` instead of raising
(the spec-modelled propagating variant raises), refuting the claim that the
failure propagates to the caller. -/
theorem C6_index_absorbs_counterexample :
    index_in_brain_async badBatchSend "proj-1" [] deptStory = false ∧
    batchIndex_spec badBatchSend "proj-1" [] deptStory = .error (.err "connection lost") :=
  ⟨rfl, rfl⟩

/-- C6 amended: `index_in_brain_async` absorbs every lower-level failure and
returns False (best-effort), while `store_task_result` re-raises the
underlying failure to its caller. -/
theorem C6_amended_batchIndex_absorbs :
    (∀ (send : List BrainNode → Except PyExc BatchResp) (pid : String)
      (items : List Item) (dept : Dept) (e : PyExc),
      send (buildNodes pid items dept) = .error e →
      index_in_brain_async send pid items dept = false)
    ∧ (∀ e : PyExc, store_task_result (.error e) = .error e) := by
  constructor
  · intro send pid items dept e h
    unfold index_in_brain_async
    rw [h]
  · intro e
    rfl

/-- Witness for the amended C6 at concrete inputs. -/
theorem C6_amended_batchIndex_absorbs_witness :
    index_in_brain_async badBatchSend "proj-1" [] deptStory = false ∧
    store_task_result (.error (.err "connection lost")) = .error (.err "connection lost") :=
  ⟨C6_amended_batchIndex_absorbs.1 badBatchSend "proj-1" [] deptStory
      (.err "connection lost") rfl,
   C6_amended_batchIndex_absorbs.2 (.err "connection lost")⟩

/-- C8: evaluation at the failing input.  From a fresh client, request 1 and
request 2 are registered (pending = [1, 2]); when request 1's timeout then
fires, line 138 pops `self.request_id` — now 2 — so request 1's id is STILL
in the pending table (and request 2's live entry is destroyed instead),
contradicting the claim/spec that the timed-out id is absent afterward.  The
last conjunct shows the sequential case (no interleaved send) does remove
the right id, confirming the slip only shows with concurrent requests. -/
theorem C8_timeout_pops_wrong_id :
    (sendRegister { request_id := 0, pending := [] }).2 = 1
    ∧ (sendRegister (sendRegister { request_id := 0, pending := [] }).1).2 = 2
    ∧ (sendRegister (sendRegister { request_id := 0, pending := [] }).1).1.pending = [1, 2]
    ∧ (timeoutCleanup (sendRegister (sendRegister { request_id := 0, pending := [] }).1).1).pending
        = [1]
    ∧ (timeoutCleanup (sendRegister { request_id := 0, pending := [] }).1).pending = [] := by
  decide

/-- C10: `cache_task_result` is a total Boolean function of the underlying
store outcome — True when the store round trip succeeds, False when it
raises for any reason; no exception reaches the caller. -/
theorem C10_cache_total :
    (∀ r : StoreResp, cache_task_result (.ok r) = true)
    ∧ (∀ e : PyExc, cache_task_result (.error e) = false) :=
  ⟨fun _ => rfl, fun _ => rfl⟩

/- ---------------------------------------------------------------------
   Structural lemmas about the orchestrator loops
   --------------------------------------------------------------------- -/

/-- Shape of every iteration outcome: a continued or broken iteration keeps
`total_iterations`, a completed one adds exactly 1; `genCalls` never
decreases; no branch publishes a terminal event. -/
theorem iterBody_shape (o : Oracle) (ctx : DeptCtx) (ls : DeptLoopState) :
    (∀ ls2, iterBody o ctx ls = .continued ls2 →
      ls2.sess.total_iterations = ls.sess.total_iterations ∧
      ls.sess.genCalls ≤ ls2.sess.genCalls ∧
      ls2.sess.events.countP Event.isTerminal = ls.sess.events.countP Event.isTerminal)
    ∧ (∀ ls2, iterBody o ctx ls = .broke ls2 →
      ls2.sess.total_iterations = ls.sess.total_iterations ∧
      ls.sess.genCalls ≤ ls2.sess.genCalls ∧
      ls2.sess.events.countP Event.isTerminal = ls.sess.events.countP Event.isTerminal)
    ∧ (∀ ls2, iterBody o ctx ls = .completed ls2 →
      ls2.sess.total_iterations = ls.sess.total_iterations + 1 ∧
      ls.sess.genCalls ≤ ls2.sess.genCalls ∧
      ls2.sess.events.countP Event.isTerminal = ls.sess.events.countP Event.isTerminal) := by
  refine ⟨?_, ?_, ?_⟩ <;>
    (intro ls2 h
     unfold iterBody at h
     repeat' first | split at h | dsimp only at h) <;>
    (try cases h) <;>
    (refine ⟨by dsimp only, by dsimp only; omega, ?_⟩
     simp [List.countP_append, List.countP_cons, Event.isTerminal])

/-- One iteration adds 1 to `total_iterations` exactly when it runs to
completion, and leaves it unchanged on every caught-exception or break
path. -/
theorem iterBody_total_iterations (o : Oracle) (ctx : DeptCtx) (ls : DeptLoopState) :
    (iterBody o ctx ls).state.sess.total_iterations =
      ls.sess.total_iterations +
        (if (iterBody o ctx ls).isCompleted then 1 else 0) := by
  have hs := iterBody_shape o ctx ls
  cases hr : iterBody o ctx ls with
  | continued ls2 =>
    have := (hs.1 ls2 hr).1
    simp [IterResult.state, IterResult.isCompleted, this]
  | broke ls2 =>
    have := (hs.2.1 ls2 hr).1
    simp [IterResult.state, IterResult.isCompleted, this]
  | completed ls2 =>
    have := (hs.2.2 ls2 hr).1
    simp [IterResult.state, IterResult.isCompleted, this]

/-- The inner loop never decreases `total_iterations`. -/
theorem deptLoop_total_mono (o : Oracle) (ctx : DeptCtx) (fuel : Nat) (ls : DeptLoopState) :
    ls.sess.total_iterations ≤ (deptLoop o ctx fuel ls).state.sess.total_iterations := by
  induction fuel generalizing ls with
  | zero => simp [deptLoop, LoopExit.state]
  | succ n ih =>
    unfold deptLoop
    split
    · have hb := iterBody_total_iterations o ctx ls
      cases hr : iterBody o ctx ls with
      | continued ls2 =>
        rw [hr] at hb
        simp only [IterResult.state] at hb
        exact le_trans (by omega) (ih ls2)
      | broke ls2 =>
        rw [hr] at hb
        simp only [IterResult.state, IterResult.isCompleted] at hb
        simp [LoopExit.state, hb]
      | completed ls2 =>
        rw [hr] at hb
        simp only [IterResult.state] at hb
        exact le_trans (by omega) (ih ls2)
    · simp [LoopExit.state]

/-- The inner loop keeps `total_iterations` within the budget: the body only
runs under the guard `total_iterations < max_iterations` and adds at most
one. -/
theorem deptLoop_total_le (o : Oracle) (ctx : DeptCtx) (fuel : Nat) (ls : DeptLoopState)
    (h : ls.sess.total_iterations ≤ ctx.max_iterations) :
    (deptLoop o ctx fuel ls).state.sess.total_iterations ≤ ctx.max_iterations := by
  induction fuel generalizing ls with
  | zero => simpa [deptLoop, LoopExit.state] using h
  | succ n ih =>
    unfold deptLoop
    split
    · rename_i hcond
      have hb := iterBody_total_iterations o ctx ls
      cases hr : iterBody o ctx ls with
      | continued ls2 =>
        rw [hr] at hb
        simp only [IterResult.state] at hb
        refine ih ls2 ?_
        split at hb <;> omega
      | broke ls2 =>
        rw [hr] at hb
        simp only [IterResult.state, IterResult.isCompleted] at hb
        simpa [LoopExit.state, hb] using h
      | completed ls2 =>
        rw [hr] at hb
        simp only [IterResult.state] at hb
        refine ih ls2 ?_
        split at hb <;> omega
    · simpa [LoopExit.state] using h

/-- Department post-processing does not change `total_iterations`, so an
in-budget session stays in budget through one department. -/
theorem processDept_total_le (o : Oracle) (fuel : Nat) (tid : String) (maxi : Nat)
    (s : SessState) (idx : Nat) (d : Dept) (h : s.total_iterations ≤ maxi) :
    (processDept o fuel tid maxi s idx d).state.total_iterations ≤ maxi := by
  unfold processDept
  split
  · simpa [SessExit.state] using h
  · have hl := deptLoop_total_le o
      { task_id := tid, max_iterations := maxi, dept := d,
        dept_name := d.name.getD d.slug, dept_number := d.codeDepNumber.getD (idx + 1),
        threshold := d.minQualityThreshold.getD 80,
        model := d.defaultModel.getD "anthropic/claude-sonnet-4.5" } fuel
      { sess := { s with events := s.events ++
          [.department_started d.slug (d.minQualityThreshold.getD 80) s.total_iterations] },
        quality_score := 0, dept_iterations := 0, dept_items_created := 0 }
      (by simpa using h)
    dsimp only
    split <;> rename_i ls heq <;> rw [heq] at hl <;>
      simpa [SessExit.state, LoopExit.state] using hl

/-- The department fold keeps `total_iterations` within the budget. -/
theorem foldDepts_total_le (o : Oracle) (fuel : Nat) (tid : String) (maxi : Nat)
    (depts : List Dept) (s : SessState) (idx : Nat) (h : s.total_iterations ≤ maxi) :
    (foldDepts o fuel tid maxi s depts idx).state.total_iterations ≤ maxi := by
  induction depts generalizing s idx with
  | nil => simpa [foldDepts, SessExit.state] using h
  | cons d rest ih =>
    unfold foldDepts
    have hp := processDept_total_le o fuel tid maxi s idx d h
    cases hr : processDept o fuel tid maxi s idx d with
    | fuelOut s2 =>
      rw [hr] at hp
      simpa [SessExit.state] using hp
    | finished s2 =>
      rw [hr] at hp
      simp only [SessExit.state] at hp
      exact ih s2 (idx + 1) hp

/-- C3: `total_iterations` never exceeds `max_iterations` on any run, for
every oracle behaviour and fuel (first conjunct); it changes by exactly one
per completed iteration and is untouched otherwise (second conjunct); and
the inner department loop never decreases it (third conjunct). -/
theorem C3_total_iterations_invariant :
    (∀ (o : Oracle) (fuel : Nat) (td : TaskData),
      (automated_gather_creation o fuel td).finalState.total_iterations ≤ td.max_iterations)
    ∧ (∀ (o : Oracle) (ctx : DeptCtx) (ls : DeptLoopState),
      (iterBody o ctx ls).state.sess.total_iterations =
        ls.sess.total_iterations +
          (if (iterBody o ctx ls).isCompleted then 1 else 0))
    ∧ (∀ (o : Oracle) (ctx : DeptCtx) (fuel : Nat) (ls : DeptLoopState),
      ls.sess.total_iterations ≤ (deptLoop o ctx fuel ls).state.sess.total_iterations) := by
  refine ⟨?_, iterBody_total_iterations, deptLoop_total_mono⟩
  intro o fuel td
  unfold automated_gather_creation
  cases o.read_gather_items with
  | error e => cases e <;> simp [raisedRun, initState]
  | ok gather =>
  cases o.get_brain_context with
  | error e => cases e <;> simp [raisedRun, initState]
  | ok brain =>
  cases o.query_departments with
  | error e => cases e <;> simp [raisedRun, initState]
  | ok departments =>
  by_cases hd : departments = []
  · simp [hd, initState]
  · simp only [hd, if_false]
    have hf := foldDepts_total_le o fuel td.task_id td.max_iterations departments
      { initState gather brain with
        events := [Event.automation_started departments.length td.max_iterations] } 0
      (by simp [initState])
    cases hr : foldDepts o fuel td.task_id td.max_iterations
        { initState gather brain with
          events := [Event.automation_started departments.length td.max_iterations] }
        departments 0 with
    | fuelOut s => rw [hr] at hf; simpa [SessExit.state] using hf
    | finished s => rw [hr] at hf; simpa [SessExit.state] using hf

/- ---------------------------------------------------------------------
   Concrete oracles for the orchestrator counterexamples
   --------------------------------------------------------------------- -/

/-- A generated candidate item. -/
def itemGen : Item := { content := "generated story beat", summary := "beat", deptMeta := none }

/-- A pre-existing story-department corpus item. -/
def itemStory0 : Item :=
  { content := "existing story seed", summary := "seed", deptMeta := some "story" }

/-- Baseline oracle: empty corpus and context, one automatable department,
a generator that yields one item on its first call (call clock 1) and
nothing afterwards, everything else succeeding quietly. -/
def oracleBase : Oracle :=
  { read_gather_items := .ok []
    get_brain_context := .ok []
    query_departments := .ok [deptStory]
    get_department_context := fun _ _ => .ok []
    generate_content_batch := fun clock _ _ _ _ => if clock = 1 then .ok [itemGen] else .ok []
    sim := simZero
    insert_many := fun _ _ => .ok ()
    index_in_brain := fun _ _ _ => true
    quality_score := fun _ _ _ => .ok 0
    trigger_eval := fun _ _ => true }

/-- Oracle whose persistence layer always raises a non-soft exception. -/
def oracleSaveFails : Oracle :=
  { oracleBase with insert_many := fun _ _ => .error (.err "mongo insert failed") }

/-- Oracle with two departments where the soft-timeout signal is raised
during the first department's save call (call clock 2). -/
def oracleSoftAtSave : Oracle :=
  { oracleBase with
    query_departments := .ok [deptStory, deptCharacter]
    insert_many := fun clock _ =>
      if clock = 2 then .error .softTimeLimitExceeded else .ok () }

/-- Oracle whose department query returns an empty list. -/
def oracleNoDepts : Oracle := { oracleBase with query_departments := .ok [] }

/-- Oracle whose pre-existing corpus already scores 95 (above the default
threshold 80) under the quality scorer. -/
def oraclePreScored : Oracle :=
  { oracleBase with
    read_gather_items := .ok [itemStory0]
    quality_score := fun _ _ _ => .ok 95 }

/- ---------------------------------------------------------------------
   Claims C1, C2, C4, C5: counterexamples
   --------------------------------------------------------------------- -/

/-- C1 counterexample: with `oracleSaveFails`, the first iteration's
`save_to_gather_db` raises a non-soft exception (the run records one
persistence error), the `except Exception: continue` handler at lines
300-309 swallows it, the second iteration generates nothing and breaks, and
the task RETURNS normally — it does not raise, refuting the claim that a
persistence failure propagates out of `automated_gather_creation`. -/
theorem C1_persistence_swallowed_counterexample :
    (automated_gather_creation oracleSaveFails 10 tdSample).finalState.saveErrors = 1 ∧
    (automated_gather_creation oracleSaveFails 10 tdSample).result =
      .ok { status := "completed", iterations := 0, departments_processed := 1,
            items_created := 0,
            summary := [{ department := "story", name := "Story", number := 1,
                          quality_score := 0, iterations := 0, items_created := 0,
                          threshold := 80,
                          model := "anthropic/claude-sonnet-4.5" }],
            message := none } := by
  decide

/-- C2 counterexample: with `oracleSoftAtSave`, the soft-timeout signal
raised during the first department's save is caught by the handler at lines
293-299, which only breaks the INNER loop; the second department is then
processed in full (the generator is invoked again, two department summaries
are produced), no automation_timeout event is ever published and the task
returns normally instead of re-raising — refuting every part of the
claim. -/
theorem C2_soft_timeout_inner_counterexample :
    (automated_gather_creation oracleSoftAtSave 10 tdSample).result =
      .ok { status := "completed", iterations := 0, departments_processed := 2,
            items_created := 0,
            summary := [{ department := "story", name := "Story", number := 1,
                          quality_score := 0, iterations := 0, items_created := 0,
                          threshold := 80,
                          model := "anthropic/claude-sonnet-4.5" },
                        { department := "character", name := "Character", number := 2,
                          quality_score := 0, iterations := 0, items_created := 0,
                          threshold := 80,
                          model := "anthropic/claude-sonnet-4.5" }],
            message := none } ∧
    (automated_gather_creation oracleSoftAtSave 10 tdSample).finalState.genCalls = 2 ∧
    Event.automation_timeout ∉
      (automated_gather_creation oracleSoftAtSave 10 tdSample).finalState.events := by
  decide

/-- C4 counterexample: with zero eligible departments the task terminates
normally (lines 104-115) but publishes NO event at all — no terminal event
is emitted, refuting the claim for the zero-departments case. -/
theorem C4_zero_departments_no_event_counterexample :
    (automated_gather_creation oracleNoDepts 5 tdSample).result =
      .ok { status := "completed", iterations := 0, departments_processed := 0,
            items_created := 0, summary := [],
            message := some "No departments configured for automation" } ∧
    (automated_gather_creation oracleNoDepts 5 tdSample).finalState.events = [] := by
  decide

/-- C5 counterexample: with `oraclePreScored` the pre-existing story corpus
already scores 95, above the department's threshold 80, yet the department
still runs one full generation iteration (the Content Generator is invoked
once and the recorded iteration count is 1), because the loop starts from
`quality_score = 0` and never scores the corpus before generating. -/
theorem C5_prescored_corpus_counterexample :
    analyze_department_quality (oraclePreScored.quality_score 0 deptStory [itemStory0])
        "story" [itemStory0] = .ok 95 ∧
    deptStory.minQualityThreshold.getD 80 = 80 ∧
    (automated_gather_creation oraclePreScored 10 tdSample).finalState.genCalls = 1 ∧
    (automated_gather_creation oraclePreScored 10 tdSample).finalState.processed_departments =
      [{ department := "story", name := "Story", number := 1, quality_score := 95,
         iterations := 1, items_created := 1, threshold := 80,
         model := "anthropic/claude-sonnet-4.5" }] := by
  decide

/- ---------------------------------------------------------------------
   Claims C1, C2: amended theorems
   --------------------------------------------------------------------- -/

/-- The per-department context of `deptStory` with its defaults resolved. -/
def ctxStory : DeptCtx :=
  { task_id := "task-1", max_iterations := 50, dept := deptStory, dept_name := "Story",
    dept_number := 1, threshold := 80, model := "anthropic/claude-sonnet-4.5" }

/-- A fresh inner-loop state over an empty corpus. -/
def ls0 : DeptLoopState :=
  { sess := initState [] [], quality_score := 0, dept_iterations := 0,
    dept_items_created := 0 }

/-- C1 amended: a persistence failure (non-soft exception raised by
`save_to_gather_db`) inside a department iteration is caught by the
`except Exception` handler at lines 300-309 and the loop CONTINUES to its
next iteration with the failure counted and logged; it does not propagate
out of the iteration, the department, or the task. -/
theorem C1_amended_persistence_caught (o : Oracle) (ctx : DeptCtx) (ls : DeptLoopState)
    (l gen_items : List Item) (m : String)
    (h1 : o.get_department_context ls.sess.clock ctx.dept.slug = .ok l)
    (h2 : o.generate_content_batch (ls.sess.clock + 1) ctx.dept
        (ls.sess.gather_items ++ ls.sess.brain_context ++ l)
        ls.sess.processed_departments ctx.model = .ok gen_items)
    (h3 : gen_items ≠ [])
    (h4 : deduplicate_items o.sim gen_items ls.sess.gather_items ctx.dept.slug ≠ [])
    (h5 : o.insert_many (ls.sess.clock + 2)
        (buildSavedDocs (iterMetadata ctx ls)
          (deduplicate_items o.sim gen_items ls.sess.gather_items ctx.dept.slug)) =
        .error (.err m)) :
    iterBody o ctx ls = .continued { ls with sess := { ls.sess with
      clock := ls.sess.clock + 3,
      genCalls := ls.sess.genCalls + 1,
      saveErrors := ls.sess.saveErrors + 1,
      events := ls.sess.events ++ [.deduplicating ctx.dept.slug gen_items.length] } } := by
  unfold iterBody
  dsimp only
  rw [h1]
  dsimp only
  rw [h2]
  dsimp only
  rw [if_neg h3]
  rw [if_neg h4]
  unfold save_to_gather_db
  rw [if_neg h4, h5]

/-- Witness for the amended C1 at concrete inputs. -/
theorem C1_amended_persistence_caught_witness :
    iterBody oracleSaveFails ctxStory ls0 = .continued { ls0 with sess := { ls0.sess with
      clock := ls0.sess.clock + 3,
      genCalls := ls0.sess.genCalls + 1,
      saveErrors := ls0.sess.saveErrors + 1,
      events := ls0.sess.events ++ [.deduplicating ctxStory.dept.slug
        ([itemGen] : List Item).length] } } :=
  C1_amended_persistence_caught oracleSaveFails ctxStory ls0 [] [itemGen]
    "mongo insert failed" rfl (by decide) (by decide) (by decide) rfl

/-- Oracle whose very first loading step raises the soft-timeout signal. -/
def oracleSoftStart : Oracle :=
  { oracleBase with read_gather_items := .error .softTimeLimitExceeded }

/-- C2 amended: the soft-timeout signal stops the whole session with an
automation_timeout event and a re-raise only when it is raised OUTSIDE the
per-iteration try block (first conjunct: raised during session loading);
raised inside a department iteration it is caught at lines 293-299 and
breaks only that department's inner loop — the session then proceeds to the
department-complete steps and the remaining departments (second
conjunct). -/
theorem C2_amended_soft_timeout_paths :
    (∀ (o : Oracle) (fuel : Nat) (td : TaskData),
      o.read_gather_items = .error .softTimeLimitExceeded →
      automated_gather_creation o fuel td =
        { finalState := { initState [] [] with events := [.automation_timeout] },
          result := .raised .softTimeLimitExceeded })
    ∧ (∀ (o : Oracle) (ctx : DeptCtx) (ls : DeptLoopState) (l gen_items : List Item),
      o.get_department_context ls.sess.clock ctx.dept.slug = .ok l →
      o.generate_content_batch (ls.sess.clock + 1) ctx.dept
          (ls.sess.gather_items ++ ls.sess.brain_context ++ l)
          ls.sess.processed_departments ctx.model = .ok gen_items →
      gen_items ≠ [] →
      deduplicate_items o.sim gen_items ls.sess.gather_items ctx.dept.slug ≠ [] →
      o.insert_many (ls.sess.clock + 2)
          (buildSavedDocs (iterMetadata ctx ls)
            (deduplicate_items o.sim gen_items ls.sess.gather_items ctx.dept.slug)) =
          .error .softTimeLimitExceeded →
      iterBody o ctx ls = .broke { ls with sess := { ls.sess with
        clock := ls.sess.clock + 3,
        genCalls := ls.sess.genCalls + 1,
        events := ls.sess.events ++ [.deduplicating ctx.dept.slug gen_items.length] } }) := by
  constructor
  · intro o fuel td h
    unfold automated_gather_creation
    rw [h]
    rfl
  · intro o ctx ls l gen_items h1 h2 h3 h4 h5
    unfold iterBody
    dsimp only
    rw [h1]
    dsimp only
    rw [h2]
    dsimp only
    rw [if_neg h3]
    rw [if_neg h4]
    unfold save_to_gather_db
    rw [if_neg h4, h5]

/-- Witness for the amended C2 at concrete inputs: the loading-step raise
publishes the timeout event and re-raises, while the in-iteration raise
(during the save at call clock 2) merely breaks the inner loop. -/
theorem C2_amended_soft_timeout_paths_witness :
    automated_gather_creation oracleSoftStart 3 tdSample =
      { finalState := { initState [] [] with events := [.automation_timeout] },
        result := .raised .softTimeLimitExceeded } ∧
    iterBody oracleSoftAtSave ctxStory ls0 = .broke { ls0 with sess := { ls0.sess with
      clock := ls0.sess.clock + 3,
      genCalls := ls0.sess.genCalls + 1,
      events := ls0.sess.events ++ [.deduplicating ctxStory.dept.slug
        ([itemGen] : List Item).length] } } :=
  ⟨C2_amended_soft_timeout_paths.1 oracleSoftStart 3 tdSample rfl,
   C2_amended_soft_timeout_paths.2 oracleSoftAtSave ctxStory ls0 [] [itemGen]
     rfl (by decide) (by decide) (by decide) rfl⟩

/- ---------------------------------------------------------------------
   Claim C4: amended theorem
   --------------------------------------------------------------------- -/

/-- Whether a fallible call returned normally. -/
def excIsOk {A : Type} : Except PyExc A -> Bool
  | .ok _ => true
  | .error _ => false

/-- Whether the department query returned an empty list. -/
def isOkEmptyDepts : Except PyExc (List Dept) -> Bool
  | .ok [] => true
  | _ => false

/-- The run takes the zero-departments early return (lines 104-115) exactly
when loading succeeds and the department query yields an empty list. -/
def earlyExit (o : Oracle) : Bool :=
  excIsOk o.read_gather_items && excIsOk o.get_brain_context &&
    isOkEmptyDepts o.query_departments

/-- The inner loop publishes no terminal event. -/
theorem deptLoop_countP (o : Oracle) (ctx : DeptCtx) (fuel : Nat) (ls : DeptLoopState) :
    (deptLoop o ctx fuel ls).state.sess.events.countP Event.isTerminal
      = ls.sess.events.countP Event.isTerminal := by
  induction fuel generalizing ls with
  | zero => simp [deptLoop, LoopExit.state]
  | succ n ih =>
    unfold deptLoop
    split
    · have hs := iterBody_shape o ctx ls
      cases hr : iterBody o ctx ls with
      | continued ls2 => rw [ih ls2, (hs.1 ls2 hr).2.2]
      | broke ls2 =>
        simp only [LoopExit.state]
        exact (hs.2.1 ls2 hr).2.2
      | completed ls2 => rw [ih ls2, (hs.2.2 ls2 hr).2.2]
    · simp [LoopExit.state]

/-- Department processing publishes no terminal event. -/
theorem processDept_countP (o : Oracle) (fuel : Nat) (tid : String) (maxi : Nat)
    (s : SessState) (idx : Nat) (d : Dept) :
    (processDept o fuel tid maxi s idx d).state.events.countP Event.isTerminal
      = s.events.countP Event.isTerminal := by
  unfold processDept
  split
  · simp [SessExit.state]
  · have hl := deptLoop_countP o
      { task_id := tid, max_iterations := maxi, dept := d,
        dept_name := d.name.getD d.slug, dept_number := d.codeDepNumber.getD (idx + 1),
        threshold := d.minQualityThreshold.getD 80,
        model := d.defaultModel.getD "anthropic/claude-sonnet-4.5" } fuel
      { sess := { s with events := s.events ++
          [.department_started d.slug (d.minQualityThreshold.getD 80) s.total_iterations] },
        quality_score := 0, dept_iterations := 0, dept_items_created := 0 }
    dsimp only
    split <;> rename_i ls heq <;> rw [heq] at hl <;>
      simp_all [SessExit.state, LoopExit.state, List.countP_append, List.countP_cons,
        Event.isTerminal]

/-- The department fold publishes no terminal event. -/
theorem foldDepts_countP (o : Oracle) (fuel : Nat) (tid : String) (maxi : Nat)
    (depts : List Dept) (s : SessState) (idx : Nat) :
    (foldDepts o fuel tid maxi s depts idx).state.events.countP Event.isTerminal
      = s.events.countP Event.isTerminal := by
  induction depts generalizing s idx with
  | nil => simp [foldDepts, SessExit.state]
  | cons d rest ih =>
    unfold foldDepts
    have hp := processDept_countP o fuel tid maxi s idx d
    cases hr : processDept o fuel tid maxi s idx d with
    | fuelOut s2 =>
      rw [hr] at hp
      simpa [SessExit.state] using hp
    | finished s2 =>
      rw [hr] at hp
      simp only [SessExit.state] at hp
      rw [ih s2 (idx + 1), hp]

/-- C4 amended: every run of `automated_gather_creation` that terminates
(does not exhaust the modelling fuel) publishes exactly one terminal event
(automation_complete, automation_timeout or automation_error) — EXCEPT the
zero-eligible-departments completion, which returns normally without
publishing any event at all. -/
theorem C4_amended_terminal_event (o : Oracle) (fuel : Nat) (td : TaskData)
    (h : (automated_gather_creation o fuel td).result ≠ .outOfFuel) :
    (automated_gather_creation o fuel td).finalState.events.countP Event.isTerminal
      = if earlyExit o then 0 else 1 := by
  unfold automated_gather_creation at h ⊢
  cases hread : o.read_gather_items with
  | error e =>
    cases e <;>
      simp [raisedRun, initState, earlyExit, excIsOk, hread,
        List.countP_cons, Event.isTerminal]
  | ok gather =>
  rw [hread] at h
  cases hbrain : o.get_brain_context with
  | error e =>
    cases e <;>
      simp [raisedRun, initState, earlyExit, excIsOk, hread, hbrain,
        List.countP_cons, Event.isTerminal]
  | ok brain =>
  rw [hbrain] at h
  cases hq : o.query_departments with
  | error e =>
    cases e <;>
      simp [raisedRun, initState, earlyExit, excIsOk, isOkEmptyDepts, hread, hbrain, hq,
        List.countP_cons, Event.isTerminal]
  | ok departments =>
  rw [hq] at h
  cases departments with
  | nil =>
    simp [initState, earlyExit, excIsOk, isOkEmptyDepts, hread, hbrain, hq]
  | cons d rest =>
    have hne : (d :: rest : List Dept) ≠ [] := by simp
    dsimp only at h ⊢
    rw [if_neg hne] at h ⊢
    have hf := foldDepts_countP o fuel td.task_id td.max_iterations (d :: rest)
      { initState gather brain with
        events := [Event.automation_started (d :: rest).length td.max_iterations] } 0
    cases hr : foldDepts o fuel td.task_id td.max_iterations
        { initState gather brain with
          events := [Event.automation_started (d :: rest).length td.max_iterations] }
        (d :: rest) 0 with
    | fuelOut s =>
      rw [hr] at h
      simp at h
    | finished s =>
      rw [hr] at hf
      simp only [SessExit.state] at hf
      simp [earlyExit, excIsOk, isOkEmptyDepts, hread, hbrain, hq,
        List.countP_append, List.countP_cons, Event.isTerminal, hf, initState]

/-- Witness for the amended C4 at a concrete input. -/
theorem C4_amended_terminal_event_witness :
    (automated_gather_creation oracleBase 10 tdSample).finalState.events.countP
        Event.isTerminal
      = if earlyExit oracleBase then 0 else 1 :=
  C4_amended_terminal_event oracleBase 10 tdSample (by decide)

/- ---------------------------------------------------------------------
   Claim C5: amended theorem
   --------------------------------------------------------------------- -/

/-- Once the department-context step of an iteration succeeds, the Content
Generator is consulted: `genCalls` grows by one whatever happens
afterwards. -/
theorem iterBody_genCalls_succ (o : Oracle) (ctx : DeptCtx) (ls : DeptLoopState)
    (l : List Item)
    (h : o.get_department_context ls.sess.clock ctx.dept.slug = .ok l) :
    ls.sess.genCalls + 1 ≤ (iterBody o ctx ls).state.sess.genCalls := by
  unfold iterBody
  dsimp only
  rw [h]
  dsimp only
  repeat' split
  all_goals simp [IterResult.state]

/-- The inner loop never decreases `genCalls`. -/
theorem deptLoop_genCalls_mono (o : Oracle) (ctx : DeptCtx) (fuel : Nat)
    (ls : DeptLoopState) :
    ls.sess.genCalls ≤ (deptLoop o ctx fuel ls).state.sess.genCalls := by
  induction fuel generalizing ls with
  | zero => simp [deptLoop, LoopExit.state]
  | succ n ih =>
    unfold deptLoop
    split
    · have hs := iterBody_shape o ctx ls
      cases hr : iterBody o ctx ls with
      | continued ls2 => exact le_trans (hs.1 ls2 hr).2.1 (ih ls2)
      | broke ls2 =>
        simp only [LoopExit.state]
        exact (hs.2.1 ls2 hr).2.1
      | completed ls2 => exact le_trans (hs.2.2 ls2 hr).2.1 (ih ls2)
    · simp [LoopExit.state]

/-- If the loop guard holds and the first iteration's context step succeeds,
the inner loop consults the Content Generator at least once. -/
theorem deptLoop_genCalls_first (o : Oracle) (ctx : DeptCtx) (fuel : Nat)
    (ls : DeptLoopState) (l : List Item)
    (hcond : ls.quality_score < ctx.threshold ∧
      ls.sess.total_iterations < ctx.max_iterations)
    (h : o.get_department_context ls.sess.clock ctx.dept.slug = .ok l) :
    ls.sess.genCalls + 1 ≤ (deptLoop o ctx (fuel + 1) ls).state.sess.genCalls := by
  unfold deptLoop
  rw [if_pos hcond]
  have hib := iterBody_genCalls_succ o ctx ls l h
  cases hr : iterBody o ctx ls with
  | continued ls2 =>
    rw [hr] at hib
    simp only [IterResult.state] at hib
    exact le_trans hib (deptLoop_genCalls_mono o ctx fuel ls2)
  | broke ls2 =>
    rw [hr] at hib
    simp only [IterResult.state] at hib
    simpa [LoopExit.state] using hib
  | completed ls2 =>
    rw [hr] at hib
    simp only [IterResult.state] at hib
    exact le_trans hib (deptLoop_genCalls_mono o ctx fuel ls2)

/-- C5 amended: the code never scores the pre-existing corpus before
generating — the inner loop starts from `quality_score = 0` — so for ANY
quality-scorer behaviour (in particular one that would rate the pre-existing
corpus at or above the threshold), a gatherCheck department with a positive
resolved threshold and remaining iteration budget whose first context step
returns invokes the Content Generator at least once. -/
theorem C5_amended_no_prescoring (o : Oracle) (fuel : Nat) (tid : String) (maxi : Nat)
    (s : SessState) (idx : Nat) (dept : Dept) (l : List Item)
    (hg : dept.gatherCheck = true)
    (ht : (0 : ℚ) < dept.minQualityThreshold.getD 80)
    (hm : s.total_iterations < maxi)
    (hc : o.get_department_context s.clock dept.slug = .ok l) :
    s.genCalls + 1 ≤ (processDept o (fuel + 1) tid maxi s idx dept).state.genCalls := by
  unfold processDept
  rw [if_neg (by simp [hg])]
  dsimp only
  have hfirst := deptLoop_genCalls_first o
    { task_id := tid, max_iterations := maxi, dept := dept,
      dept_name := dept.name.getD dept.slug,
      dept_number := dept.codeDepNumber.getD (idx + 1),
      threshold := dept.minQualityThreshold.getD 80,
      model := dept.defaultModel.getD "anthropic/claude-sonnet-4.5" } fuel
    { sess := { s with events := s.events ++
        [.department_started dept.slug (dept.minQualityThreshold.getD 80)
          s.total_iterations] },
      quality_score := 0, dept_iterations := 0, dept_items_created := 0 } l
    ⟨ht, hm⟩ hc
  cases hr : deptLoop o
      { task_id := tid, max_iterations := maxi, dept := dept,
        dept_name := dept.name.getD dept.slug,
        dept_number := dept.codeDepNumber.getD (idx + 1),
        threshold := dept.minQualityThreshold.getD 80,
        model := dept.defaultModel.getD "anthropic/claude-sonnet-4.5" } (fuel + 1)
      { sess := { s with events := s.events ++
          [.department_started dept.slug (dept.minQualityThreshold.getD 80)
            s.total_iterations] },
        quality_score := 0, dept_iterations := 0, dept_items_created := 0 } with
  | fuelOut ls =>
    rw [hr] at hfirst
    simpa [SessExit.state, LoopExit.state] using hfirst
  | finished ls =>
    rw [hr] at hfirst
    simp only [LoopExit.state] at hfirst
    simpa [SessExit.state] using hfirst

/-- Witness for the amended C5 at concrete inputs: the scorer rates
everything 95, above the threshold 80, yet the generator is still
invoked. -/
theorem C5_amended_no_prescoring_witness :
    (initState [itemStory0] []).genCalls + 1 ≤
      (processDept oraclePreScored 10 "task-1" 50 (initState [itemStory0] []) 0
        deptStory).state.genCalls :=
  C5_amended_no_prescoring oraclePreScored 9 "task-1" 50 (initState [itemStory0] []) 0
    deptStory [] rfl (by decide) (by decide) rfl

end CeleryRedis
